import Mathlib

/-
  Verification development for the base-indexer ingestion pipeline.

  The definitions below are a shallow embedding of the TypeScript source:
  SQLite tables become finite maps or lists, the prepared statements of
  src/storage/db.ts become store-transforming functions, and the control
  flow of src/ingestion/poller.ts (handleReorg, processBlock, the polling
  loop body) becomes pure functions over an explicit store state plus
  oracles for the remote RPC chain.  Block numbers are Int, matching the
  arbitrary-precision bigint arithmetic of the source.
-/

namespace BaseIndexer

/-- Model of the JavaScript toLowerCase operation on ASCII strings. -/
def lowerChar (c : Char) : Char :=
  if 65 ≤ c.toNat ∧ c.toNat ≤ 90 then Char.ofNat (c.toNat + 32) else c

/-- Lower-cases every character of a string, as topic comparison does in the source. -/
def strToLower (s : String) : String := ⟨s.data.map lowerChar⟩

/-! ## Table rows, mirroring the columns written by the prepared statements of src/storage/db.ts -/

/-- Row of the blocks table, keyed by block number (schema.ts lines 6-16).
The createdAt column defaults to unixepoch() at insert time (schema.ts line
15); insertBlock omits it from its column list, so INSERT OR REPLACE
re-evaluates the default on every write of the row. -/
structure BlockRow where
  hash : String
  parentHash : String
  timestamp : Int
  gasUsed : String
  gasLimit : String
  baseFeePerGas : Option String
  reorged : Int
  createdAt : Int
deriving DecidableEq, Repr

/-- Row of the transactions table, keyed by tx hash. -/
structure TxRow where
  blockNumber : Int
  fromAddr : String
  toAddr : Option String
  value : String
  inputData : String
  gasPrice : Option String
  maxFeePerGas : Option String
  maxPriorityFeePerGas : Option String
deriving DecidableEq, Repr

/-- Row of the receipts table, keyed by tx hash. -/
structure ReceiptRow where
  blockNumber : Int
  status : Int
  gasUsed : String
  logCount : Nat
  contractAddress : Option String
deriving DecidableEq, Repr

/-- Row of the append-only logs table; the autoincrement surrogate id is the list position. -/
structure LogRow where
  txHash : String
  blockNumber : Int
  logIndex : Int
  address : String
  topic0 : Option String
  topic1 : Option String
  topic2 : Option String
  topic3 : Option String
  data : String
deriving DecidableEq, Repr

/-- Row of the block_metrics table, keyed by block number. -/
structure MetricsRow where
  txCount : Int
  logCount : Int
  gasUsed : String
  avgGasPerTx : Option String
  topContracts : String
deriving DecidableEq, Repr

/-- Row of the token_transfers table (append-only). -/
structure TokenTransferRow where
  txHash : String
  blockNumber : Int
  logIndex : Int
  tokenAddress : String
  fromAddr : String
  toAddr : String
  amount : String
deriving DecidableEq, Repr

/-- Row of the nft_transfers table (append-only). -/
structure NftTransferRow where
  txHash : String
  blockNumber : Int
  logIndex : Int
  contractAddress : String
  fromAddr : String
  toAddr : String
  tokenId : String
  amount : String
  standard : String
deriving DecidableEq, Repr

/-- Row of the dex_swaps table (append-only). -/
structure DexSwapRow where
  txHash : String
  blockNumber : Int
  logIndex : Int
  dexName : String
  poolAddress : String
  sender : Option String
  recipient : Option String
  token0In : Option String
  token1In : Option String
  token0Out : Option String
  token1Out : Option String
deriving DecidableEq, Repr

/-- Row of the contract_deployments table (append-only). -/
structure DeploymentRow where
  txHash : String
  blockNumber : Int
  deployer : String
  contractAddress : String
  gasUsed : Option String
deriving DecidableEq, Repr

/-- A keyed SQLite table is a partial map from primary key to row. -/
def Table (K ρ : Type) : Type := K → Option ρ

/-- Point update of a keyed table: insert-or-replace at one key. -/
def mapUpdate {K ρ : Type} [DecidableEq K] (m : Table K ρ) (k : K) (v : ρ) : Table K ρ :=
  fun k' => if k' = k then some v else m k'

/-- The whole local store: one field per table plus the checkpoint row. -/
structure Store where
  blocks : Table Int BlockRow
  transactions : Table String TxRow
  receipts : Table String ReceiptRow
  logs : List LogRow
  blockMetrics : Table Int MetricsRow
  eventCounts : Table (Int × String) Int
  tokenTransfers : List TokenTransferRow
  nftTransfers : List NftTransferRow
  dexSwaps : List DexSwapRow
  contractDeployments : List DeploymentRow
  checkpoint : Option Int

/-- The store of a fresh database: every table empty, no checkpoint row. -/
def emptyStore : Store where
  blocks := fun _ => none
  transactions := fun _ => none
  receipts := fun _ => none
  logs := []
  blockMetrics := fun _ => none
  eventCounts := fun _ => none
  tokenTransfers := []
  nftTransfers := []
  dexSwaps := []
  contractDeployments := []
  checkpoint := none

/-! ## Fetched data, as handed to the prepared statements by processBlock (poller.ts lines 44-130) -/

/-- Header data of a fetched block, with numeric fields already stringified
the way processBlock passes them to the insert statement. -/
structure BlockSnap where
  number : Int
  hash : String
  parentHash : String
  timestamp : Int
  gasUsed : String
  gasLimit : String
  baseFeePerGas : Option String
deriving DecidableEq, Repr

/-- One fetched transaction, with the fields insertTx receives. -/
structure TxSnap where
  hash : String
  fromAddr : String
  toAddr : Option String
  value : String
  inputData : String
  gasPrice : Option String
  maxFeePerGas : Option String
  maxPriorityFeePerGas : Option String
deriving DecidableEq, Repr

/-- One log taken from a fetched receipt. -/
structure LogSnap where
  logIndex : Int
  address : String
  topics : List String
  data : String
deriving DecidableEq, Repr

/-- One fetched receipt together with its logs, as processBlock iterates them. -/
structure ReceiptSnap where
  txHash : String
  status : String
  gasUsed : String
  contractAddress : Option String
  logs : List LogSnap
deriving DecidableEq, Repr

/-- Output of computeBlockMetrics as consumed by the insert statements. -/
structure MetricsSnap where
  txCount : Int
  logCount : Int
  gasUsed : String
  avgGasPerTx : Option String
  topContracts : String
  eventCounts : List (String × Int)
deriving DecidableEq, Repr

/-- Everything the per-block write path of processBlock persists for one block. -/
structure ProcessData where
  block : BlockSnap
  txs : List TxSnap
  receipts : List ReceiptSnap
  metrics : MetricsSnap
deriving DecidableEq, Repr

/-! ## Row builders: the VALUES tuples of the INSERT statements in src/storage/db.ts -/

/-- Values written by stmts.insertBlock: literal 0 for the reorged column, and
the unixepoch() default re-evaluated at the wall-clock instant of the write
for the createdAt column. -/
def blockRowOf (now : Int) (b : BlockSnap) : BlockRow :=
  { hash := b.hash, parentHash := b.parentHash, timestamp := b.timestamp,
    gasUsed := b.gasUsed, gasLimit := b.gasLimit, baseFeePerGas := b.baseFeePerGas,
    reorged := 0, createdAt := now }

/-- Values written by stmts.insertTx. -/
def txRowOf (bn : Int) (t : TxSnap) : TxRow :=
  { blockNumber := bn, fromAddr := t.fromAddr, toAddr := t.toAddr, value := t.value,
    inputData := t.inputData, gasPrice := t.gasPrice, maxFeePerGas := t.maxFeePerGas,
    maxPriorityFeePerGas := t.maxPriorityFeePerGas }

/-- Values written by stmts.insertReceipt; status is 1 exactly for success (poller.ts line 79). -/
def receiptRowOf (bn : Int) (r : ReceiptSnap) : ReceiptRow :=
  { blockNumber := bn, status := if r.status = "success" then 1 else 0,
    gasUsed := r.gasUsed, logCount := r.logs.length, contractAddress := r.contractAddress }

/-- Values written by stmts.insertLog; missing topics become null (poller.ts lines 91-94). -/
def logRowOf (bn : Int) (txh : String) (lg : LogSnap) : LogRow :=
  { txHash := txh, blockNumber := bn, logIndex := lg.logIndex, address := lg.address,
    topic0 := lg.topics.get? 0, topic1 := lg.topics.get? 1, topic2 := lg.topics.get? 2,
    topic3 := lg.topics.get? 3, data := lg.data }

/-- Values written by stmts.insertBlockMetrics. -/
def metricsRowOf (m : MetricsSnap) : MetricsRow :=
  { txCount := m.txCount, logCount := m.logCount, gasUsed := m.gasUsed,
    avgGasPerTx := m.avgGasPerTx, topContracts := m.topContracts }

/-! ## Single prepared statements as store transformers -/

/-- Insert-or-ignore into a keyed table: the row is written only when the key is absent. -/
def insIgnore {K ρ β : Type} [DecidableEq K] (key : β → K) (val : β → ρ)
    (m : Table K ρ) (b : β) : Table K ρ :=
  match m (key b) with
  | some _ => m
  | none => mapUpdate m (key b) (val b)

/-- stmts.insertBlock: INSERT OR REPLACE into blocks with reorged hard-coded to 0. -/
def stmtInsertBlock (now : Int) (b : BlockSnap) : Store → Store :=
  fun s => { s with blocks := mapUpdate s.blocks b.number (blockRowOf now b) }

/-- stmts.insertTx: INSERT OR IGNORE into transactions keyed by hash. -/
def stmtInsertTx (bn : Int) (t : TxSnap) : Store → Store :=
  fun s => { s with transactions := insIgnore TxSnap.hash (txRowOf bn) s.transactions t }

/-- stmts.insertReceipt: INSERT OR IGNORE into receipts keyed by tx hash. -/
def stmtInsertReceipt (bn : Int) (r : ReceiptSnap) : Store → Store :=
  fun s => { s with receipts := insIgnore ReceiptSnap.txHash (receiptRowOf bn) s.receipts r }

/-- stmts.insertLog: plain INSERT, appending a surrogate-keyed row. -/
def stmtInsertLog (bn : Int) (txh : String) (lg : LogSnap) : Store → Store :=
  fun s => { s with logs := s.logs ++ [logRowOf bn txh lg] }

/-- stmts.insertBlockMetrics: INSERT OR REPLACE keyed by block number. -/
def stmtInsertBlockMetrics (bn : Int) (m : MetricsSnap) : Store → Store :=
  fun s => { s with blockMetrics := mapUpdate s.blockMetrics bn (metricsRowOf m) }

/-- stmts.insertEventCount: INSERT OR REPLACE keyed by block number and event type. -/
def stmtInsertEventCount (bn : Int) (eventType : String) (count : Int) : Store → Store :=
  fun s => { s with eventCounts := mapUpdate s.eventCounts (bn, eventType) count }

/-- setLastProcessedBlock: INSERT OR REPLACE into the single checkpoint row (db.ts lines 75-77). -/
def stmtSetCheckpoint (n : Int) : Store → Store :=
  fun s => { s with checkpoint := some n }

/-! ## The per-block write path of processBlock (poller.ts lines 48-126)

Each prepared-statement call is one element of a list; better-sqlite3 runs each
statement as its own autocommitted write, there is no enclosing transaction in
the source, so a store failure cuts the list at an arbitrary prefix. -/

/-- All statements processBlock issues before the checkpoint write, in source order:
the block row, then one insert per transaction, then per receipt the receipt row
followed by its log rows, then the metrics row, then the positive event counts. -/
def bodyStmts (d : ProcessData) (now : Int) : List (Store → Store) :=
  stmtInsertBlock now d.block
    :: (d.txs.map (stmtInsertTx d.block.number)
      ++ d.receipts.flatMap
          (fun r => stmtInsertReceipt d.block.number r
            :: r.logs.map (stmtInsertLog d.block.number r.txHash))
      ++ [stmtInsertBlockMetrics d.block.number d.metrics]
      ++ (d.metrics.eventCounts.filter (fun p => decide (0 < p.2))).map
          (fun p => stmtInsertEventCount d.block.number p.1 p.2))

/-- Full statement sequence of processBlock: the body followed by the checkpoint write. -/
def blockStmts (d : ProcessData) (now : Int) : List (Store → Store) :=
  bodyStmts d now ++ [stmtSetCheckpoint d.block.number]

/-- Runs a list of statements left to right. -/
def runStmts (l : List (Store → Store)) (s : Store) : Store :=
  l.foldl (fun st f => f st) s

/-- Store effect of a completed processBlock call for one block worth of
fetched data, run at wall-clock instant now (the value the unixepoch()
default of blocks.createdAt evaluates to during the insert). -/
def processBlock (s : Store) (d : ProcessData) (now : Int) : Store :=
  runStmts (blockStmts d now) s

/-- Store state after the first k statements of processBlock; models a store
failure aborting the remaining statements, each earlier one being autocommitted. -/
def processBlockPrefix (d : ProcessData) (now : Int) (k : Nat) (s : Store) : Store :=
  runStmts ((blockStmts d now).take k) s

/-! ## Reorg handling (poller.ts lines 16-42) and the store statements it uses -/

/-- stmts.getBlockByNumber: SELECT from blocks WHERE number matches AND reorged = 0. -/
def getBlockByNumberStore (s : Store) (n : Int) : Option BlockRow :=
  match s.blocks n with
  | some row => if row.reorged = 0 then some row else none
  | none => none

/-- stmts.markReorged: UPDATE blocks SET reorged = 1 WHERE number is at least the bound. -/
def markReorgedStore (s : Store) (r : Int) : Store :=
  { s with blocks := fun n =>
      (s.blocks n).map (fun row => if r ≤ n then { row with reorged := 1 } else row) }

/-- The DELETE batch of handleReorg (poller.ts lines 30-36): rows with
blockNumber at least the rewind point are removed from logs, receipts,
transactions, block_metrics and event_counts; no other table is touched. -/
def rewindDeletes (s : Store) (r : Int) : Store :=
  { s with
    logs := s.logs.filter (fun row => decide (row.blockNumber < r))
    receipts := fun k => match s.receipts k with
      | some row => if r ≤ row.blockNumber then none else some row
      | none => none
    transactions := fun k => match s.transactions k with
      | some row => if r ≤ row.blockNumber then none else some row
      | none => none
    blockMetrics := fun n => if r ≤ n then none else s.blockMetrics n
    eventCounts := fun p => if r ≤ p.1 then none else s.eventCounts p }

/-- The complete rewind action of handleReorg for a rewind point: mark blocks
reorged, run the deletes, then set the checkpoint to one below the rewind point. -/
def rewindStore (s : Store) (r : Int) : Store :=
  stmtSetCheckpoint (r - 1) (rewindDeletes (markReorgedStore s r) r)

/-- handleReorg (poller.ts lines 16-42): look up the stored non-reorged block one
below the candidate, fetch the remote candidate, compare parent hash to stored
hash case-insensitively, and on mismatch rewind by the configured depth.
Returns the updated store and the block number to process from. -/
def handleReorg (depth : Int) (remote : Int → BlockSnap) (s : Store) (currentBlock : Int) :
    Store × Int :=
  match getBlockByNumberStore s (currentBlock - 1) with
  | none => (s, currentBlock)
  | some prevRow =>
    if strToLower (remote currentBlock).parentHash = strToLower prevRow.hash then
      (s, currentBlock)
    else
      (rewindStore s (currentBlock - depth), currentBlock - depth)

/-! ## The polling loop body (poller.ts lines 147-169) -/

/-- What one iteration of the polling loop did. -/
inductive PollAction where
  | sleep
  | rewound (newLast : Int)
  | processed (n : Int)
deriving DecidableEq, Repr

/-- One iteration of the startPoller while-loop on the happy path: compute the
next block; if it is beyond the head, sleep; otherwise run handleReorg, and
either restart behind the rewind point or process the next block.  Returns the
store, the new lastProcessed value, and the action taken. -/
def pollerIteration (depth : Int) (remote : Int → BlockSnap) (dataOf : Int → ProcessData)
    (now : Int) (s : Store) (lastProcessed head : Int) : Store × Int × PollAction :=
  let nextBlock := lastProcessed + 1
  if head < nextBlock then
    (s, lastProcessed, PollAction.sleep)
  else
    let hr := handleReorg depth remote s nextBlock
    if hr.2 < nextBlock then
      (hr.1, hr.2 - 1, PollAction.rewound (hr.2 - 1))
    else
      (processBlock hr.1 (dataOf nextBlock) now, nextBlock, PollAction.processed nextBlock)

/-- Checkpoint seeding at startup (poller.ts lines 137-145): resume from the
stored checkpoint, or on first run start the safety buffer below the head. -/
def initLastProcessed (ckpt : Option Int) (latest : Int) (safetyBuffer : Int) : Int :=
  match ckpt with
  | some n => n
  | none => latest - safetyBuffer

/-! ## Generic facts about statement sequences -/

theorem runStmts_append (l₁ l₂ : List (Store → Store)) (s : Store) :
    runStmts (l₁ ++ l₂) s = runStmts l₂ (runStmts l₁ s) :=
  List.foldl_append _ _ _ _

theorem runStmts_cons (f : Store → Store) (l : List (Store → Store)) (s : Store) :
    runStmts (f :: l) s = runStmts l (f s) := rfl

theorem runStmts_single (f : Store → Store) (s : Store) : runStmts [f] s = f s := rfl

theorem runStmts_flatMap {β : Type} (segf : β → List (Store → Store)) (l : List β) (s : Store) :
    runStmts (l.flatMap segf) s = l.foldl (fun st b => runStmts (segf b) st) s := by
  induction l generalizing s with
  | nil => rfl
  | cons b l ih => rw [List.flatMap_cons, runStmts_append, List.foldl_cons, ih]

theorem runStmts_preserve {γ : Type} (p : Store → γ) (l : List (Store → Store))
    (h : ∀ f ∈ l, ∀ st, p (f st) = p st) (s : Store) : p (runStmts l s) = p s := by
  induction l generalizing s with
  | nil => rfl
  | cons f l ih =>
    rw [runStmts_cons, ih (fun g hg => h g (List.mem_cons_of_mem f hg)), h f (List.mem_cons_self f l)]

theorem foldl_component {β γ : Type} (p : Store → γ) (g : Store → β → Store) (u : γ → β → γ)
    (hg : ∀ st b, p (g st b) = u (p st) b) (l : List β) (s : Store) :
    p (l.foldl g s) = l.foldl u (p s) := by
  induction l generalizing s with
  | nil => rfl
  | cons b l ih => rw [List.foldl_cons, List.foldl_cons, ih, hg]

theorem runStmts_map_component {β γ : Type} (p : Store → γ) (g : β → Store → Store)
    (u : γ → β → γ) (hg : ∀ st b, p (g b st) = u (p st) b) (l : List β) (s : Store) :
    p (runStmts (l.map g) s) = l.foldl u (p s) := by
  induction l generalizing s with
  | nil => rfl
  | cons b l ih => rw [List.map_cons, runStmts_cons, List.foldl_cons, ih, hg]

/-! ## Component equations for the per-block write path -/

theorem processBlock_checkpoint (s : Store) (d : ProcessData) (now : Int) :
    (processBlock s d now).checkpoint = some d.block.number := by
  rw [processBlock, blockStmts, runStmts_append]
  rfl

theorem bodyStmts_shapes (d : ProcessData) (now : Int) (f : Store → Store)
    (hf : f ∈ bodyStmts d now) :
    (∃ nw b, f = stmtInsertBlock nw b) ∨ (∃ bn t, f = stmtInsertTx bn t) ∨
    (∃ bn r, f = stmtInsertReceipt bn r) ∨ (∃ bn h lg, f = stmtInsertLog bn h lg) ∨
    (∃ bn m, f = stmtInsertBlockMetrics bn m) ∨ (∃ bn e c, f = stmtInsertEventCount bn e c) := by
  rcases List.mem_cons.mp hf with rfl | hf2
  · exact Or.inl ⟨now, d.block, rfl⟩
  rcases List.mem_append.mp hf2 with hf3 | hE
  · rcases List.mem_append.mp hf3 with hf4 | hM
    · rcases List.mem_append.mp hf4 with hA | hB
      · rcases List.mem_map.mp hA with ⟨t, _, rfl⟩
        exact Or.inr (Or.inl ⟨d.block.number, t, rfl⟩)
      · rcases List.mem_flatMap.mp hB with ⟨r, _, hfr⟩
        rcases List.mem_cons.mp hfr with rfl | hlg
        · exact Or.inr (Or.inr (Or.inl ⟨d.block.number, r, rfl⟩))
        · rcases List.mem_map.mp hlg with ⟨lg, _, rfl⟩
          exact Or.inr (Or.inr (Or.inr (Or.inl ⟨d.block.number, r.txHash, lg, rfl⟩)))
    · rcases List.mem_singleton.mp hM with rfl
      exact Or.inr (Or.inr (Or.inr (Or.inr (Or.inl ⟨d.block.number, d.metrics, rfl⟩))))
  · rcases List.mem_map.mp hE with ⟨p, _, rfl⟩
    exact Or.inr (Or.inr (Or.inr (Or.inr (Or.inr ⟨d.block.number, p.1, p.2, rfl⟩))))

theorem bodyStmts_preserve_checkpoint (d : ProcessData) (now : Int) (f : Store → Store)
    (hf : f ∈ bodyStmts d now) (st : Store) : (f st).checkpoint = st.checkpoint := by
  rcases bodyStmts_shapes d now f hf with ⟨nw, b, rfl⟩ | ⟨bn, t, rfl⟩ | ⟨bn, r, rfl⟩ |
    ⟨bn, h, lg, rfl⟩ | ⟨bn, m, rfl⟩ | ⟨bn, e, c, rfl⟩ <;> rfl

theorem processBlockPrefix_checkpoint (d : ProcessData) (now : Int) (k : Nat)
    (hk : k < (blockStmts d now).length) (s : Store) :
    (processBlockPrefix d now k s).checkpoint = s.checkpoint := by
  have hlen : (blockStmts d now).length = (bodyStmts d now).length + 1 := by
    simp [blockStmts]
  have hk2 : k ≤ (bodyStmts d now).length := by omega
  have htake : (blockStmts d now).take k = (bodyStmts d now).take k := by
    rw [blockStmts, List.take_append_of_le_length hk2]
  rw [processBlockPrefix, htake]
  exact runStmts_preserve Store.checkpoint _
    (fun f hf => bodyStmts_preserve_checkpoint d now f (List.take_subset k _ hf)) s

theorem runStmts_flatMap_component {β γ : Type} (p : Store → γ) (segf : β → List (Store → Store))
    (u : γ → β → γ) (h : ∀ st b, p (runStmts (segf b) st) = u (p st) b) (l : List β) (s : Store) :
    p (runStmts (l.flatMap segf) s) = l.foldl u (p s) := by
  rw [runStmts_flatMap]
  exact foldl_component p _ u h l s

theorem processBlock_blocks (s : Store) (d : ProcessData) (now : Int) :
    (processBlock s d now).blocks =
      mapUpdate s.blocks d.block.number (blockRowOf now d.block) := by
  rw [processBlock, blockStmts, bodyStmts, runStmts_append, runStmts_single, runStmts_cons,
    runStmts_append, runStmts_append, runStmts_append, runStmts_single]
  have hA : ∀ X : Store,
      (runStmts (d.txs.map (stmtInsertTx d.block.number)) X).blocks = X.blocks := fun X =>
    runStmts_preserve Store.blocks _ (by
      intro f hf st
      rcases List.mem_map.mp hf with ⟨t, _, rfl⟩
      rfl) X
  have hB : ∀ X : Store,
      (runStmts (d.receipts.flatMap (fun r => stmtInsertReceipt d.block.number r
        :: r.logs.map (stmtInsertLog d.block.number r.txHash))) X).blocks = X.blocks := fun X =>
    runStmts_preserve Store.blocks _ (by
      intro f hf st
      rcases List.mem_flatMap.mp hf with ⟨r, _, hfr⟩
      rcases List.mem_cons.mp hfr with rfl | hlg
      · rfl
      · rcases List.mem_map.mp hlg with ⟨lg, _, rfl⟩
        rfl) X
  have hE : ∀ X : Store,
      (runStmts ((d.metrics.eventCounts.filter (fun p => decide (0 < p.2))).map
        (fun p => stmtInsertEventCount d.block.number p.1 p.2)) X).blocks = X.blocks := fun X =>
    runStmts_preserve Store.blocks _ (by
      intro f hf st
      rcases List.mem_map.mp hf with ⟨p, _, rfl⟩
      rfl) X
  rw [show ∀ X : Store, (stmtSetCheckpoint d.block.number X).blocks = X.blocks from fun _ => rfl,
    hE, show ∀ X : Store, (stmtInsertBlockMetrics d.block.number d.metrics X).blocks = X.blocks
      from fun _ => rfl, hB, hA]
  rfl

theorem processBlock_transactions (s : Store) (d : ProcessData) (now : Int) :
    (processBlock s d now).transactions =
      d.txs.foldl (insIgnore TxSnap.hash (txRowOf d.block.number)) s.transactions := by
  rw [processBlock, blockStmts, bodyStmts, runStmts_append, runStmts_single, runStmts_cons,
    runStmts_append, runStmts_append, runStmts_append, runStmts_single]
  have hA : ∀ X : Store,
      (runStmts (d.txs.map (stmtInsertTx d.block.number)) X).transactions =
        d.txs.foldl (insIgnore TxSnap.hash (txRowOf d.block.number)) X.transactions := fun X =>
    runStmts_map_component Store.transactions _ _ (fun _ _ => rfl) d.txs X
  have hB : ∀ X : Store,
      (runStmts (d.receipts.flatMap (fun r => stmtInsertReceipt d.block.number r
        :: r.logs.map (stmtInsertLog d.block.number r.txHash))) X).transactions =
        X.transactions := fun X =>
    runStmts_preserve Store.transactions _ (by
      intro f hf st
      rcases List.mem_flatMap.mp hf with ⟨r, _, hfr⟩
      rcases List.mem_cons.mp hfr with rfl | hlg
      · rfl
      · rcases List.mem_map.mp hlg with ⟨lg, _, rfl⟩
        rfl) X
  have hE : ∀ X : Store,
      (runStmts ((d.metrics.eventCounts.filter (fun p => decide (0 < p.2))).map
        (fun p => stmtInsertEventCount d.block.number p.1 p.2)) X).transactions =
        X.transactions := fun X =>
    runStmts_preserve Store.transactions _ (by
      intro f hf st
      rcases List.mem_map.mp hf with ⟨p, _, rfl⟩
      rfl) X
  rw [show ∀ X : Store, (stmtSetCheckpoint d.block.number X).transactions = X.transactions
      from fun _ => rfl, hE,
    show ∀ X : Store, (stmtInsertBlockMetrics d.block.number d.metrics X).transactions =
      X.transactions from fun _ => rfl, hB, hA]
  rfl

theorem processBlock_receipts (s : Store) (d : ProcessData) (now : Int) :
    (processBlock s d now).receipts =
      d.receipts.foldl (insIgnore ReceiptSnap.txHash (receiptRowOf d.block.number)) s.receipts := by
  rw [processBlock, blockStmts, bodyStmts, runStmts_append, runStmts_single, runStmts_cons,
    runStmts_append, runStmts_append, runStmts_append, runStmts_single]
  have hA : ∀ X : Store,
      (runStmts (d.txs.map (stmtInsertTx d.block.number)) X).receipts = X.receipts := fun X =>
    runStmts_preserve Store.receipts _ (by
      intro f hf st
      rcases List.mem_map.mp hf with ⟨t, _, rfl⟩
      rfl) X
  have hB : ∀ X : Store,
      (runStmts (d.receipts.flatMap (fun r => stmtInsertReceipt d.block.number r
        :: r.logs.map (stmtInsertLog d.block.number r.txHash))) X).receipts =
        d.receipts.foldl (insIgnore ReceiptSnap.txHash (receiptRowOf d.block.number))
          X.receipts := fun X => by
    refine runStmts_flatMap_component Store.receipts _ _ (fun st r => ?_) d.receipts X
    rw [runStmts_cons]
    exact runStmts_preserve Store.receipts _ (by
      intro f hf st2
      rcases List.mem_map.mp hf with ⟨lg, _, rfl⟩
      rfl) _
  have hE : ∀ X : Store,
      (runStmts ((d.metrics.eventCounts.filter (fun p => decide (0 < p.2))).map
        (fun p => stmtInsertEventCount d.block.number p.1 p.2)) X).receipts =
        X.receipts := fun X =>
    runStmts_preserve Store.receipts _ (by
      intro f hf st
      rcases List.mem_map.mp hf with ⟨p, _, rfl⟩
      rfl) X
  rw [show ∀ X : Store, (stmtSetCheckpoint d.block.number X).receipts = X.receipts
      from fun _ => rfl, hE,
    show ∀ X : Store, (stmtInsertBlockMetrics d.block.number d.metrics X).receipts = X.receipts
      from fun _ => rfl, hB, hA]
  rfl

theorem processBlock_blockMetrics (s : Store) (d : ProcessData) (now : Int) :
    (processBlock s d now).blockMetrics =
      mapUpdate s.blockMetrics d.block.number (metricsRowOf d.metrics) := by
  rw [processBlock, blockStmts, bodyStmts, runStmts_append, runStmts_single, runStmts_cons,
    runStmts_append, runStmts_append, runStmts_append, runStmts_single]
  have hA : ∀ X : Store,
      (runStmts (d.txs.map (stmtInsertTx d.block.number)) X).blockMetrics =
        X.blockMetrics := fun X =>
    runStmts_preserve Store.blockMetrics _ (by
      intro f hf st
      rcases List.mem_map.mp hf with ⟨t, _, rfl⟩
      rfl) X
  have hB : ∀ X : Store,
      (runStmts (d.receipts.flatMap (fun r => stmtInsertReceipt d.block.number r
        :: r.logs.map (stmtInsertLog d.block.number r.txHash))) X).blockMetrics =
        X.blockMetrics := fun X =>
    runStmts_preserve Store.blockMetrics _ (by
      intro f hf st
      rcases List.mem_flatMap.mp hf with ⟨r, _, hfr⟩
      rcases List.mem_cons.mp hfr with rfl | hlg
      · rfl
      · rcases List.mem_map.mp hlg with ⟨lg, _, rfl⟩
        rfl) X
  have hE : ∀ X : Store,
      (runStmts ((d.metrics.eventCounts.filter (fun p => decide (0 < p.2))).map
        (fun p => stmtInsertEventCount d.block.number p.1 p.2)) X).blockMetrics =
        X.blockMetrics := fun X =>
    runStmts_preserve Store.blockMetrics _ (by
      intro f hf st
      rcases List.mem_map.mp hf with ⟨p, _, rfl⟩
      rfl) X
  rw [show ∀ X : Store, (stmtSetCheckpoint d.block.number X).blockMetrics = X.blockMetrics
      from fun _ => rfl, hE]
  rw [show ∀ X : Store, (stmtInsertBlockMetrics d.block.number d.metrics X).blockMetrics =
    mapUpdate X.blockMetrics d.block.number (metricsRowOf d.metrics) from fun _ => rfl]
  rw [hB, hA]
  rfl

theorem processBlock_eventCounts (s : Store) (d : ProcessData) (now : Int) :
    (processBlock s d now).eventCounts =
      (d.metrics.eventCounts.filter (fun p => decide (0 < p.2))).foldl
        (fun m p => mapUpdate m (d.block.number, p.1) p.2) s.eventCounts := by
  rw [processBlock, blockStmts, bodyStmts, runStmts_append, runStmts_single, runStmts_cons,
    runStmts_append, runStmts_append, runStmts_append, runStmts_single]
  have hA : ∀ X : Store,
      (runStmts (d.txs.map (stmtInsertTx d.block.number)) X).eventCounts =
        X.eventCounts := fun X =>
    runStmts_preserve Store.eventCounts _ (by
      intro f hf st
      rcases List.mem_map.mp hf with ⟨t, _, rfl⟩
      rfl) X
  have hB : ∀ X : Store,
      (runStmts (d.receipts.flatMap (fun r => stmtInsertReceipt d.block.number r
        :: r.logs.map (stmtInsertLog d.block.number r.txHash))) X).eventCounts =
        X.eventCounts := fun X =>
    runStmts_preserve Store.eventCounts _ (by
      intro f hf st
      rcases List.mem_flatMap.mp hf with ⟨r, _, hfr⟩
      rcases List.mem_cons.mp hfr with rfl | hlg
      · rfl
      · rcases List.mem_map.mp hlg with ⟨lg, _, rfl⟩
        rfl) X
  have hE : ∀ X : Store,
      (runStmts ((d.metrics.eventCounts.filter (fun p => decide (0 < p.2))).map
        (fun p => stmtInsertEventCount d.block.number p.1 p.2)) X).eventCounts =
        (d.metrics.eventCounts.filter (fun p => decide (0 < p.2))).foldl
          (fun m p => mapUpdate m (d.block.number, p.1) p.2) X.eventCounts := fun X =>
    runStmts_map_component Store.eventCounts _ _ (fun _ _ => rfl) _ X
  rw [show ∀ X : Store, (stmtSetCheckpoint d.block.number X).eventCounts = X.eventCounts
      from fun _ => rfl, hE,
    show ∀ X : Store, (stmtInsertBlockMetrics d.block.number d.metrics X).eventCounts =
      X.eventCounts from fun _ => rfl, hB, hA]
  rfl

/-! ## Idempotency of the insert-or-replace and insert-or-ignore folds -/

theorem mapUpdate_idem {K ρ : Type} [DecidableEq K] (m : Table K ρ) (k : K) (v : ρ) :
    mapUpdate (mapUpdate m k v) k v = mapUpdate m k v := by
  funext k'
  by_cases h : k' = k <;> simp [mapUpdate, h]

section InsertFolds

variable {K ρ β : Type} [DecidableEq K] (key : β → K) (val : β → ρ)

theorem insIgnore_isSome_mono (m : Table K ρ) (b : β) (k : K) (h : (m k).isSome) :
    ((insIgnore key val m b) k).isSome := by
  unfold insIgnore
  cases hm : m (key b) with
  | some _ => exact h
  | none =>
    by_cases hk : k = key b <;> simp [mapUpdate, hk, h]

theorem foldl_insIgnore_isSome (l : List β) (m : Table K ρ) (k : K) (h : (m k).isSome) :
    ((l.foldl (insIgnore key val) m) k).isSome := by
  induction l generalizing m with
  | nil => exact h
  | cons c l ih => exact ih _ (insIgnore_isSome_mono key val m c k h)

theorem insIgnore_key_isSome (m : Table K ρ) (b : β) :
    ((insIgnore key val m b) (key b)).isSome := by
  unfold insIgnore
  cases hm : m (key b) with
  | some _ => simp [hm]
  | none => simp [mapUpdate]

theorem foldl_insIgnore_mem_isSome (l : List β) (m : Table K ρ) (b : β) (hb : b ∈ l) :
    ((l.foldl (insIgnore key val) m) (key b)).isSome := by
  induction l generalizing m with
  | nil => cases hb
  | cons c l ih =>
    rcases List.mem_cons.mp hb with rfl | hb2
    · exact foldl_insIgnore_isSome key val l _ _ (insIgnore_key_isSome key val m b)
    · exact ih _ hb2

theorem insIgnore_of_isSome (m : Table K ρ) (b : β) (h : (m (key b)).isSome) :
    insIgnore key val m b = m := by
  unfold insIgnore
  cases hm : m (key b) with
  | some _ => rfl
  | none => rw [hm] at h; cases h

theorem foldl_insIgnore_of_isSome (l : List β) (m : Table K ρ)
    (h : ∀ b ∈ l, (m (key b)).isSome) : l.foldl (insIgnore key val) m = m := by
  induction l with
  | nil => rfl
  | cons c l ih =>
    rw [List.foldl_cons, insIgnore_of_isSome key val m c (h c (List.mem_cons_self c l))]
    exact ih fun b hb => h b (List.mem_cons_of_mem c hb)

theorem foldl_insIgnore_idem (l : List β) (m : Table K ρ) :
    l.foldl (insIgnore key val) (l.foldl (insIgnore key val) m) =
      l.foldl (insIgnore key val) m :=
  foldl_insIgnore_of_isSome key val l _ fun b hb => foldl_insIgnore_mem_isSome key val l m b hb

theorem foldl_update_not_written (l : List β) (m : Table K ρ) (k : K)
    (h : ∀ b ∈ l, key b ≠ k) :
    (l.foldl (fun m b => mapUpdate m (key b) (val b)) m) k = m k := by
  induction l generalizing m with
  | nil => rfl
  | cons c l ih =>
    rw [List.foldl_cons, ih _ fun b hb => h b (List.mem_cons_of_mem c hb)]
    simp [mapUpdate, Ne.symm (h c (List.mem_cons_self c l))]

theorem foldl_update_written_indep (l : List β) (k : K) (h : ∃ b ∈ l, key b = k)
    (m₁ m₂ : Table K ρ) :
    (l.foldl (fun m b => mapUpdate m (key b) (val b)) m₁) k =
      (l.foldl (fun m b => mapUpdate m (key b) (val b)) m₂) k := by
  induction l generalizing m₁ m₂ with
  | nil => obtain ⟨b, hb, _⟩ := h; cases hb
  | cons c l ih =>
    rw [List.foldl_cons, List.foldl_cons]
    by_cases hex : ∃ b ∈ l, key b = k
    · exact ih hex _ _
    · have hkc : key c = k := by
        obtain ⟨b, hb, hbk⟩ := h
        rcases List.mem_cons.mp hb with rfl | hb2
        · exact hbk
        · exact absurd ⟨b, hb2, hbk⟩ hex
      have hni : ∀ b ∈ l, key b ≠ k := by
        intro b hb hbk
        exact hex ⟨b, hb, hbk⟩
      rw [foldl_update_not_written key val l _ k hni, foldl_update_not_written key val l _ k hni]
      simp [mapUpdate, hkc]

theorem foldl_update_idem (l : List β) (m : Table K ρ) :
    l.foldl (fun m b => mapUpdate m (key b) (val b))
        (l.foldl (fun m b => mapUpdate m (key b) (val b)) m) =
      l.foldl (fun m b => mapUpdate m (key b) (val b)) m := by
  funext k
  by_cases hex : ∃ b ∈ l, key b = k
  · exact foldl_update_written_indep key val l k hex _ m
  · have hni : ∀ b ∈ l, key b ≠ k := fun b hb hbk => hex ⟨b, hb, hbk⟩
    rw [foldl_update_not_written key val l _ k hni, foldl_update_not_written key val l _ k hni]

end InsertFolds

/-- Projection of the store onto the five tables named by the idempotent-replay
property: blocks, transactions, receipts, block_metrics and event_counts. -/
def fiveTables (s : Store) :
    Table Int BlockRow × Table String TxRow × Table String ReceiptRow ×
      Table Int MetricsRow × Table (Int × String) Int :=
  (s.blocks, s.transactions, s.receipts, s.blockMetrics, s.eventCounts)

/-- Projection of the store onto the four tables replay leaves byte-identical
regardless of wall-clock time: transactions, receipts, block_metrics and
event_counts. -/
def fourTables (s : Store) :
    Table String TxRow × Table String ReceiptRow × Table Int MetricsRow ×
      Table (Int × String) Int :=
  (s.transactions, s.receipts, s.blockMetrics, s.eventCounts)

/-- Forgets the wall-clock createdAt column of a blocks row. -/
def stripCreatedAt (row : BlockRow) : BlockRow := { row with createdAt := 0 }

/-! ## Event signature registry (src/parsing/classifier.ts lines 4-96)

The source computes these constants with keccak256 at initialization; the
embedding carries the resulting lower-case hex values as literals.  Only the
signatures that classifyLog compares against are needed here. -/

namespace SIGNATURES

def TRANSFER : String := "0xddf252ad1be2c89b69c2b068fc378daa952ba7f163c4a11628f55a4df523b3ef"

def APPROVAL : String := "0x8c5be1e5ebec7d5bd14f71427d1e84f3dd0314c0f7b2291e5b200ac8c7c3b925"

def APPROVAL_FOR_ALL : String := "0x17307eab39ab6107e8899845ad3d59bd9653f200f220920489ca2b5937696c31"

def TRANSFER_SINGLE : String := "0xc3d58168c5ae7397731d063d5bbf3d657854427343f4c083240f7aacaa2d0f62"

def TRANSFER_BATCH : String := "0x4a39dc06d4c0dbc64b70af90fd698a233a518aa5d07e595d983b8c0526c8f7fb"

def SWAP_V2 : String := "0xd78ad95fa46c994b6551d0da85fc275fe613ce37657fb8d5e3d130840159d822"

def SYNC : String := "0x1c411e9a96e071241c2f21f7726b17ae89e3cab4c78be50e062b03a9fffbbad1"

def MINT_V2 : String := "0x4c209b5fc8ad50758f13e2e1088ba56a560dff690a1c6fef26394f4c03821c4f"

def BURN_V2 : String := "0xdccd412f0b1252819cb1fd330b93224ca42612892bb3f4f789976e6d81936496"

def SWAP_V3 : String := "0xc42079f94a6350d7e6235f29174924f928cc2ac818eb64fed8004e115fbcca67"

def MINT_V3 : String := "0x7a53080ba414158be7ec69b987b5fb7d07dee101fe85488f0853ae16239d0bde"

def BURN_V3 : String := "0x0c396cd989a39f4459b5fa1aed6a9a8dcdbc45908acfd67e028cd568da98982c"

def COLLECT_V3 : String := "0x70935338e69775456a85ddef226c395fb668b63fa0115f5f20610b388e6ca9c0"

def FLASH_V3 : String := "0xbdbdb71d7860376ba52b25a5028beea23581364a40522f6bcfb86bb1f2dca633"

def INCREASE_LIQUIDITY : String := "0x3067048beee31b25b2f1681f88dac838c8bba36af25bfb2b7cf7473a5847e35f"

def DECREASE_LIQUIDITY : String := "0x26f6a048ee9138f2c0ce266f322cb99228e8d619ae2bff30c67f8dcf9d2377b4"

def SWAP_AERO : String := "0xb3e2773606abfd36b5bd91394b3a54d1398336c65005baf7bf7a05efeffaf75b"

def DEPOSIT : String := "0xe1fffcc4923d04b559f4d29a8bfc6cda04eb5b0d3c460751c2402c5c5cc9109c"

def WITHDRAWAL : String := "0x7fcf532c15f0a6db0bd6d0e038bea71d30d808c7d98cb3bf7268a95bf5081b65"

def USER_OPERATION_EVENT : String := "0x49628fd1471006c1482da88028e9ce4dbb080b815c9b0344d39e5a8e6ec1419f"

def ACCOUNT_DEPLOYED : String := "0xd51a9c61267aa6196961883ecf5ff2da6619c37dac0fa92122513fb32c032d2d"

def USER_OP_REVERT_REASON : String := "0x1c4fada7374c0a9ee8841fc38afe82932dc0f8e69012e927f061a8bae611a201"

def SUPPLY : String := "0x2b627736bca15cd5381dcf80b0bf11fd197d01a037c52b927a881a10fb73ba61"

def WITHDRAW : String := "0x3115d1449a7b732c986cba18244e897a450f61e1bb8d589cd2e69e6c8924f9f7"

def BORROW : String := "0xb3d084820fb1a9decffb176436bd02558d15fac9b0ddfed8c465bc7359d7dce0"

def REPAY : String := "0xa534c8dbe71f871f9f3530e97a74601fea17b426cae02e1c5aee42c96c784051"

def LIQUIDATION_CALL : String := "0xe413a321e8681d831f4dbccbca790d2952b56f977908e45be37335533e005286"

def FLASH_LOAN : String := "0xefefaba5e921573100900a3ad9cf29f222d995fb3b6045797eaea7521bd8d6f0"

def RESERVE_DATA_UPDATED : String := "0x804c9b842b2748a22bb64b345453a3de7ca54a6ca45ce00d415894979e22897a"

def SENT_MESSAGE : String := "0xcb0f7ffd78f9aee47a248fae8db181db6eee833039123e026dcbff529522e52a"

def RELAYED_MESSAGE : String := "0x4641df4a962071e12719d8c8c8e5ac7fc4d97b927346a3d7a335b1f7517e133c"

def DEPOSIT_FINALIZED : String := "0xb0444523268717a02698be47d0803aa7468c00acbed2f8bd93a0459cde61dd89"

def WITHDRAWAL_INITIATED : String := "0x73d170910aba9e6d50b102db522b1dbcd796216f5128b445aa2135272886497e"

def PROPOSAL_CREATED : String := "0x7d84a6263ae0d98d3329bd7b46bb4e8d6f98cd35a7adb45c274c8b7fd5ebd5e0"

def VOTE_CAST : String := "0xb8e138887d0aa13bab447e82de9d5c1777041ecd21ca36ba824ff1e6c07ddda4"

def PROPOSAL_EXECUTED : String := "0x712ae1383f79ac853f8d882153778e0260ef8f03b504e2866e0593e04d2b291f"

def STAKED : String := "0x9e71bc8eea02a63969f509818f2dafb9254532904319f9dbda79b67bd34a5f3d"

def REWARD_PAID : String := "0xe2403640ba68fed3a2f88b7557551d1993f84b99bb10ff833f0cf8db0c5e0486"

def REWARDS_CLAIMED : String := "0xfc30cddea38e2bf4d6ea7d3f9ed3b6ad7f176419f4963bd81318067a4aee73fe"

def CLAIM : String := "0x47cee97cb7acd717b3c0aa1435d004cd5b3c8c57d70dbceb4e4458bbd60e39d4"

def FEE_COLLECTED : String := "0x596b573906218d3411850b26a6b437d6c4522fdb43d2d2386263f86d50b8b151"

def PRICE_FEED_UPDATE : String := "0xd06a6b7f4918494b3719217d1802786c1f5112a6c1d88fe2cfec00b4584f6aec"

def SAFE_SETUP : String := "0x141df868a6331af528e38c83b7aa03edc19be66e37ae67f9285bf4f8e3c6a1a8"

def EXECUTION_SUCCESS : String := "0x442e715f626346e8c54381002da614f62bee8d27386535b2521ec8540898556e"

def EXECUTION_FAILURE : String := "0x23428b18acfb3ea64b08dc0c1d296ea9c09702c09083ca5272e64d115b687d23"

def ADDED_OWNER : String := "0x9465fa0c962cc76958e6373a993326400c1c94f8be2fe3a952adfa7f60b2ea26"

def REMOVED_OWNER : String := "0xf8d49fc529812e9a7c5c50e69c20f0dccc0db8fa95c98bc58cc9a4f1c1299eaf"

def OWNERSHIP_TRANSFERRED : String := "0x8be0079c531659141344cd1fd0a4f28419497f9722a3daafe3b4186f6b6457e0"

def UPGRADED : String := "0xbc7cd75a20ee27fd9adebab32041f755214dbc6bffa90cc0225b39da2e5c2d3b"

end SIGNATURES

/-- Log kinds returned by classifyLog (classifier.ts lines 103-137). -/
inductive EventType where
  | eth_transfer
  | contract_creation
  | contract_call
  | erc20_transfer
  | erc721_transfer
  | erc1155_transfer
  | dex_swap_v2
  | dex_swap_v3
  | dex_swap_aero
  | liquidity_add
  | liquidity_remove
  | liquidity_collect
  | approval
  | weth_wrap
  | weth_unwrap
  | user_operation
  | account_deployed
  | lending_supply
  | lending_withdraw
  | lending_borrow
  | lending_repay
  | lending_liquidation
  | flash_loan
  | bridge_send
  | bridge_receive
  | staking
  | reward_claim
  | governance
  | oracle_update
  | multisig_exec
  | ownership_change
  | contract_upgrade
  | pool_sync
  | other
deriving DecidableEq, Repr

/-- Body of classifyLog after the lower-casing of topic0, comparing the
signature against the registry in exactly the source order
(classifier.ts lines 152-262). -/
def classifyLogSig (sig : String) (topicCount : Nat) : EventType :=
  if sig = SIGNATURES.DEPOSIT then EventType.weth_wrap
  else if sig = SIGNATURES.WITHDRAWAL then EventType.weth_unwrap
  else if sig = SIGNATURES.SWAP_V2 then EventType.dex_swap_v2
  else if sig = SIGNATURES.SWAP_V3 then EventType.dex_swap_v3
  else if sig = SIGNATURES.SWAP_AERO then EventType.dex_swap_aero
  else if sig = SIGNATURES.SYNC then EventType.pool_sync
  else if sig = SIGNATURES.MINT_V2 ∨ sig = SIGNATURES.MINT_V3 ∨
    sig = SIGNATURES.INCREASE_LIQUIDITY then EventType.liquidity_add
  else if sig = SIGNATURES.BURN_V2 ∨ sig = SIGNATURES.BURN_V3 ∨
    sig = SIGNATURES.DECREASE_LIQUIDITY then EventType.liquidity_remove
  else if sig = SIGNATURES.COLLECT_V3 ∨ sig = SIGNATURES.FEE_COLLECTED then
    EventType.liquidity_collect
  else if sig = SIGNATURES.USER_OPERATION_EVENT ∨ sig = SIGNATURES.USER_OP_REVERT_REASON then
    EventType.user_operation
  else if sig = SIGNATURES.ACCOUNT_DEPLOYED then EventType.account_deployed
  else if sig = SIGNATURES.SUPPLY then EventType.lending_supply
  else if sig = SIGNATURES.WITHDRAW then EventType.lending_withdraw
  else if sig = SIGNATURES.BORROW then EventType.lending_borrow
  else if sig = SIGNATURES.REPAY then EventType.lending_repay
  else if sig = SIGNATURES.LIQUIDATION_CALL then EventType.lending_liquidation
  else if sig = SIGNATURES.FLASH_LOAN ∨ sig = SIGNATURES.FLASH_V3 then EventType.flash_loan
  else if sig = SIGNATURES.SENT_MESSAGE ∨ sig = SIGNATURES.WITHDRAWAL_INITIATED then
    EventType.bridge_send
  else if sig = SIGNATURES.RELAYED_MESSAGE ∨ sig = SIGNATURES.DEPOSIT_FINALIZED then
    EventType.bridge_receive
  else if sig = SIGNATURES.STAKED then EventType.staking
  else if sig = SIGNATURES.REWARD_PAID ∨ sig = SIGNATURES.REWARDS_CLAIMED ∨
    sig = SIGNATURES.CLAIM then EventType.reward_claim
  else if sig = SIGNATURES.PROPOSAL_CREATED ∨ sig = SIGNATURES.VOTE_CAST ∨
    sig = SIGNATURES.PROPOSAL_EXECUTED then EventType.governance
  else if sig = SIGNATURES.PRICE_FEED_UPDATE ∨ sig = SIGNATURES.RESERVE_DATA_UPDATED then
    EventType.oracle_update
  else if sig = SIGNATURES.EXECUTION_SUCCESS ∨ sig = SIGNATURES.EXECUTION_FAILURE ∨
    sig = SIGNATURES.SAFE_SETUP then EventType.multisig_exec
  else if sig = SIGNATURES.OWNERSHIP_TRANSFERRED ∨ sig = SIGNATURES.ADDED_OWNER ∨
    sig = SIGNATURES.REMOVED_OWNER then EventType.ownership_change
  else if sig = SIGNATURES.UPGRADED then EventType.contract_upgrade
  else if sig = SIGNATURES.TRANSFER_SINGLE then EventType.erc1155_transfer
  else if sig = SIGNATURES.TRANSFER_BATCH then EventType.erc1155_transfer
  else if sig = SIGNATURES.TRANSFER then
    (if topicCount = 4 then EventType.erc721_transfer else EventType.erc20_transfer)
  else if sig = SIGNATURES.APPROVAL ∨ sig = SIGNATURES.APPROVAL_FOR_ALL then EventType.approval
  else EventType.other

/-- classifyLog (classifier.ts lines 149-263): a missing or empty topic0 is
the catch-all bucket, otherwise the lower-cased signature is classified. -/
def classifyLog (topic0 : Option String) (topicCount : Nat) : EventType :=
  match topic0 with
  | none => EventType.other
  | some t => if t = "" then EventType.other else classifyLogSig (strToLower t) topicCount

/-! ## Swap decoding (src/parsing/decoder.ts lines 113-137) -/

/-- Big-endian interpretation of a byte list, each byte reduced mod 256. -/
def bytesToNat (l : List Nat) : Nat := l.foldl (fun acc b => acc * 256 + b % 256) 0

/-- The i-th 32-byte word of an ABI data blob. -/
def wordAt (data : List Nat) (i : Nat) : Nat := bytesToNat ((data.drop (32 * i)).take 32)

/-- Two's-complement reading of an unsigned value at a declared bit width. -/
def toSigned (w : Nat) (x : Nat) : Int :=
  if x < 2 ^ (w - 1) then (x : Int) else (x : Int) - 2 ^ w

/-- Decoded record returned by decodeSwapV3. -/
structure DecodedSwapV3 where
  sender : String
  recipient : String
  amount0 : Int
  amount1 : Int
  sqrtPriceX96 : Nat
  liquidity : Nat
  tick : Int
deriving DecidableEq, Repr

/-- decodeSwapV3: requires indexed topics 1 and 2, takes the last 40 hex
characters of each as addresses, and ABI-decodes the data blob as
int256, int256, uint160, uint128, int24.  The two amounts use
two's-complement at width 256; data shorter than the five words is a decode
failure and yields none, as the caught decoding exception does in the source. -/
def decodeSwapV3 (topics : List (Option String)) (data : List Nat) : Option DecodedSwapV3 :=
  match topics.getD 1 none, topics.getD 2 none with
  | some t1, some t2 =>
    if t1 = "" ∨ t2 = "" then none
    else if data.length < 160 then none
    else some
      { sender := "0x" ++ t1.drop 26
        recipient := "0x" ++ t2.drop 26
        amount0 := toSigned 256 (wordAt data 0)
        amount1 := toSigned 256 (wordAt data 1)
        sqrtPriceX96 := wordAt data 2 % 2 ^ 160
        liquidity := wordAt data 3 % 2 ^ 128
        tick := toSigned 24 (wordAt data 4 % 2 ^ 24) }
  | _, _ => none

theorem bytesToNat_foldl_lt (l : List Nat) :
    ∀ acc : Nat, l.foldl (fun acc b => acc * 256 + b % 256) acc < (acc + 1) * 256 ^ l.length := by
  induction l with
  | nil => intro acc; simp
  | cons b l ih =>
    intro acc
    calc (b :: l).foldl (fun acc b => acc * 256 + b % 256) acc
        < (acc * 256 + b % 256 + 1) * 256 ^ l.length := ih _
      _ ≤ ((acc + 1) * 256) * 256 ^ l.length := by
          have hb : b % 256 < 256 := Nat.mod_lt _ (by norm_num)
          have : acc * 256 + b % 256 + 1 ≤ (acc + 1) * 256 := by omega
          exact Nat.mul_le_mul_right _ this
      _ = (acc + 1) * 256 ^ (l.length + 1) := by ring

theorem bytesToNat_lt (l : List Nat) : bytesToNat l < 256 ^ l.length := by
  have h := bytesToNat_foldl_lt l 0
  simpa [bytesToNat] using h

theorem wordAt_lt (data : List Nat) (i : Nat) : wordAt data i < 2 ^ 256 := by
  have h1 : wordAt data i < 256 ^ ((data.drop (32 * i)).take 32).length := bytesToNat_lt _
  have h2 : ((data.drop (32 * i)).take 32).length ≤ 32 := by
    simp
  have h3 : (256 : Nat) ^ ((data.drop (32 * i)).take 32).length ≤ 256 ^ 32 :=
    Nat.pow_le_pow_right (by norm_num) h2
  have h4 : (256 : Nat) ^ 32 = 2 ^ 256 := by norm_num
  omega

theorem toSigned256_bounds (x : Nat) (h : x < 2 ^ 256) :
    -(2 : Int) ^ 255 ≤ toSigned 256 x ∧ toSigned 256 x < 2 ^ 255 := by
  unfold toSigned
  by_cases hx : x < 2 ^ (256 - 1)
  · rw [if_pos hx]
    constructor
    · have : (0 : Int) ≤ (x : Int) := Int.natCast_nonneg x
      have h255 : (0 : Int) < 2 ^ 255 := by positivity
      omega
    · exact_mod_cast hx
  · rw [if_neg hx]
    have h1 : (x : Int) < 2 ^ 256 := by exact_mod_cast h
    have h2 : (2 : Int) ^ 255 ≤ (x : Int) := by
      have := Nat.le_of_not_lt hx
      exact_mod_cast this
    have h3 : (2 : Int) ^ 256 = 2 * 2 ^ 255 := by ring
    constructor <;> omega

/-! ## RPC calls issued by the block processor

fetchBlockWithTxs and fetchReceipts (src/ingestion/fetcher.ts) issue one
eth_getBlockByNumber call and one eth_getTransactionReceipt call per hash;
the trace model records which remote methods processBlock touches. -/

inductive RpcCall where
  | getBlockNumber
  | getBlockWithTxs (n : Int)
  | blockReceipts (n : Int)
  | getTransactionReceipt (h : String)
deriving DecidableEq, Repr

/-- Calls made by fetchReceipts: one receipt fetch per transaction hash. -/
def fetchReceiptsCalls (txHashes : List String) : List RpcCall :=
  txHashes.map RpcCall.getTransactionReceipt

/-- Remote calls of one processBlock run (poller.ts lines 45 and 72): the block
fetch followed by the per-hash receipt fan-out. -/
def processBlockCalls (d : ProcessData) : List RpcCall :=
  RpcCall.getBlockWithTxs d.block.number :: fetchReceiptsCalls (d.txs.map TxSnap.hash)

/-- Recognizes the batch eth_getBlockReceipts method. -/
def isBlockReceiptsCall : RpcCall → Bool :=
  fun c => match c with
  | RpcCall.blockReceipts _ => true
  | _ => false


/-! ## Concrete fixtures used by counterexamples and witnesses -/

/-- A one-transaction block at height 5, with empty receipt list and one
positive event count, as fetched data for the write path. -/
def dataEx : ProcessData where
  block :=
    { number := 5, hash := "0xb5", parentHash := "0xb4", timestamp := 1700000000,
      gasUsed := "21000", gasLimit := "30000000", baseFeePerGas := none }
  txs :=
    [{ hash := "0xt1", fromAddr := "0xaaa", toAddr := some "0xbbb", value := "0",
       inputData := "0x", gasPrice := none, maxFeePerGas := none,
       maxPriorityFeePerGas := none }]
  receipts := []
  metrics :=
    { txCount := 1, logCount := 0, gasUsed := "21000", avgGasPerTx := some "21000",
      topContracts := "[]", eventCounts := [("contract_call", 1)] }

/-- A stored block row whose hash the reorg scenario compares against. -/
def rowAA : BlockRow :=
  { hash := "0xAA", parentHash := "0x99", timestamp := 0, gasUsed := "0", gasLimit := "0",
    baseFeePerGas := none, reorged := 0, createdAt := 0 }

/-- Store holding block 100 with hash 0xAA and checkpoint 100, the reorg fixture. -/
def storeReorg : Store :=
  { emptyStore with
    blocks := fun n => if n = 100 then some rowAA else none
    checkpoint := some 100 }

/-- Remote chain whose every block has parent hash 0xBB, mismatching 0xAA. -/
def remoteMismatch : Int → BlockSnap := fun n =>
  { number := n, hash := "0xCC", parentHash := "0xBB", timestamp := 0, gasUsed := "0",
    gasLimit := "0", baseFeePerGas := none }

/-- Constant fetched-data oracle for poller iterations. -/
def dataOfAny : Int → ProcessData := fun _ => dataEx

/-- A dex_swaps row at height 95, inside the would-be rewind range. -/
def dexSwapRowEx : DexSwapRow :=
  { txHash := "0xt1", blockNumber := 95, logIndex := 0, dexName := "DEX V3",
    poolAddress := "0xpool", sender := none, recipient := none, token0In := none,
    token1In := none, token0Out := none, token1Out := none }

/-- Store with one block row at 95 and one enriched dex_swaps row at 95. -/
def storeEnriched : Store :=
  { emptyStore with
    blocks := fun n => if n = 95 then some rowAA else none
    dexSwaps := [dexSwapRowEx] }

/-- Store with one block row at height 5, used for the reorged-flag scenario. -/
def storeBlock5 : Store :=
  { emptyStore with blocks := fun n => if n = 5 then some rowAA else none }

/-! ## Claims -/

/-- Claim C1, counterexample.  The claim states that on a store failure the
per-block transaction rolls back and the store is left unchanged.  The source
runs the inserts as individual autocommitted statements with no enclosing
transaction, so a failure after the first statement (here: the insertTx call
failing right after insertBlock committed) leaves the block row behind: the
store is visibly changed even though the checkpoint did not advance, and more
statements were still pending. -/
theorem claim_C1_counterexample :
    1 < (blockStmts dataEx 1000).length ∧
    (processBlockPrefix dataEx 1000 1 emptyStore).blocks 5 =
      some (blockRowOf 1000 dataEx.block) ∧
    emptyStore.blocks 5 = none ∧
    (processBlockPrefix dataEx 1000 1 emptyStore).checkpoint = emptyStore.checkpoint := by
  refine ⟨by decide, by decide, by decide, by decide⟩

/-- Claim C1, amended.  The per-block writes are a sequence of individually
committed statements, not one transaction: a store failure that interrupts the
sequence after any k statements short of the end leaves the checkpoint
unchanged (the checkpoint write is the final statement), while the full
sequence advances the checkpoint to the block number and leaves the block row
in place.  Rows written before the failing statement are not rolled back. -/
theorem claim_C1_amended (s : Store) (d : ProcessData) (now : Int) (k : Nat)
    (hk : k < (blockStmts d now).length) :
    (processBlockPrefix d now k s).checkpoint = s.checkpoint ∧
    (processBlock s d now).checkpoint = some d.block.number ∧
    (processBlock s d now).blocks d.block.number = some (blockRowOf now d.block) := by
  refine ⟨processBlockPrefix_checkpoint d now k hk s, processBlock_checkpoint s d now, ?_⟩
  rw [processBlock_blocks]
  simp [mapUpdate]

/-- Claim C1, witness: the amended theorem applied at the concrete fixture,
interrupting after one statement. -/
theorem claim_C1_witness :
    1 < (blockStmts dataEx 1000).length ∧
    ((processBlockPrefix dataEx 1000 1 emptyStore).checkpoint = emptyStore.checkpoint ∧
      (processBlock emptyStore dataEx 1000).checkpoint = some dataEx.block.number ∧
      (processBlock emptyStore dataEx 1000).blocks dataEx.block.number =
        some (blockRowOf 1000 dataEx.block)) :=
  ⟨by decide, claim_C1_amended emptyStore dataEx 1000 1 (by decide)⟩

/-- Claim C2, counterexample.  The claim states that after a rewind to r no row
with blockNumber at least r remains in dex_swaps (among others).  The DELETE
batch of handleReorg touches only logs, receipts, transactions, block_metrics
and event_counts, so a dex_swaps row at height 95 survives a rewind to 91. -/
theorem claim_C2_counterexample :
    (rewindStore storeEnriched 91).dexSwaps = [dexSwapRowEx] ∧
    (91 : Int) ≤ dexSwapRowEx.blockNumber ∧
    (rewindStore storeEnriched 91).checkpoint = some 90 := by
  refine ⟨rfl, by decide, by decide⟩

/-- Claim C2, amended.  After a rewind to r, no row with blockNumber at least r
remains in logs, receipts, transactions, block_metrics or event_counts; blocks
rows at or above r are kept but flagged reorged = 1; the checkpoint equals
r - 1; the four enriched tables (token_transfers, nft_transfers, dex_swaps,
contract_deployments) are left untouched by the rewind. -/
theorem claim_C2_amended (s : Store) (r : Int) :
    (∀ row ∈ (rewindStore s r).logs, row.blockNumber < r) ∧
    (∀ k row, (rewindStore s r).receipts k = some row → row.blockNumber < r) ∧
    (∀ k row, (rewindStore s r).transactions k = some row → row.blockNumber < r) ∧
    (∀ n, r ≤ n → (rewindStore s r).blockMetrics n = none) ∧
    (∀ p : Int × String, r ≤ p.1 → (rewindStore s r).eventCounts p = none) ∧
    (∀ n row, s.blocks n = some row → r ≤ n →
      (rewindStore s r).blocks n = some { row with reorged := 1 }) ∧
    (rewindStore s r).checkpoint = some (r - 1) ∧
    (rewindStore s r).tokenTransfers = s.tokenTransfers ∧
    (rewindStore s r).nftTransfers = s.nftTransfers ∧
    (rewindStore s r).dexSwaps = s.dexSwaps ∧
    (rewindStore s r).contractDeployments = s.contractDeployments := by
  refine ⟨?_, ?_, ?_, ?_, ?_, ?_, rfl, rfl, rfl, rfl, rfl⟩
  · intro row hrow
    have hrow2 : row ∈ s.logs.filter (fun row => decide (row.blockNumber < r)) := hrow
    exact of_decide_eq_true (List.mem_filter.mp hrow2).2
  · intro k row h
    have h2 : (match s.receipts k with
      | some row => if r ≤ row.blockNumber then none else some row
      | none => none) = some row := h
    cases hk : s.receipts k with
    | none => rw [hk] at h2; cases h2
    | some row2 =>
      rw [hk] at h2
      dsimp only at h2
      by_cases hge : r ≤ row2.blockNumber
      · rw [if_pos hge] at h2; cases h2
      · rw [if_neg hge] at h2
        cases h2
        omega
  · intro k row h
    have h2 : (match s.transactions k with
      | some row => if r ≤ row.blockNumber then none else some row
      | none => none) = some row := h
    cases hk : s.transactions k with
    | none => rw [hk] at h2; cases h2
    | some row2 =>
      rw [hk] at h2
      dsimp only at h2
      by_cases hge : r ≤ row2.blockNumber
      · rw [if_pos hge] at h2; cases h2
      · rw [if_neg hge] at h2
        cases h2
        omega
  · intro n hge
    show (if r ≤ n then none else s.blockMetrics n) = none
    rw [if_pos hge]
  · intro p hge
    show (if r ≤ p.1 then none else s.eventCounts p) = none
    rw [if_pos hge]
  · intro n row hrow hge
    show (s.blocks n).map (fun row => if r ≤ n then { row with reorged := 1 } else row) =
      some { row with reorged := 1 }
    rw [hrow]
    simp [if_pos hge]

theorem rewindStore_checkpoint (s : Store) (r : Int) :
    (rewindStore s r).checkpoint = some (r - 1) := rfl

theorem rewindStore_blocks_flag (s : Store) (r n : Int) (row : BlockRow)
    (hrow : s.blocks n = some row) (hge : r ≤ n) :
    (rewindStore s r).blocks n = some { row with reorged := 1 } := by
  show (s.blocks n).map (fun row => if r ≤ n then { row with reorged := 1 } else row) =
    some { row with reorged := 1 }
  rw [hrow]
  simp [if_pos hge]

theorem handleReorg_mismatch (depth : Int) (remote : Int → BlockSnap) (s : Store) (next : Int)
    (prev : BlockRow) (hprev : getBlockByNumberStore s (next - 1) = some prev)
    (hmis : ¬ strToLower (remote next).parentHash = strToLower prev.hash) :
    handleReorg depth remote s next = (rewindStore s (next - depth), next - depth) := by
  unfold handleReorg
  rw [hprev]
  dsimp only
  rw [if_neg hmis]

theorem handleReorg_noPrev (depth : Int) (remote : Int → BlockSnap) (s : Store) (next : Int)
    (h : getBlockByNumberStore s (next - 1) = none) :
    handleReorg depth remote s next = (s, next) := by
  unfold handleReorg
  rw [h]

/-- Claim C2, witness: the amended theorem at the concrete enriched store with
rewind point 91: metrics at 95 are gone, the block row at 95 is flagged, the
checkpoint is 90, and the dex_swaps table is untouched. -/
theorem claim_C2_witness :
    (rewindStore storeEnriched 91).blockMetrics 95 = none ∧
    (rewindStore storeEnriched 91).blocks 95 = some { rowAA with reorged := 1 } ∧
    (rewindStore storeEnriched 91).checkpoint = some (91 - 1) ∧
    (rewindStore storeEnriched 91).dexSwaps = storeEnriched.dexSwaps :=
  ⟨(claim_C2_amended storeEnriched 91).2.2.2.1 95 (by decide),
    (claim_C2_amended storeEnriched 91).2.2.2.2.2.1 95 rowAA (by decide) (by decide),
    (claim_C2_amended storeEnriched 91).2.2.2.2.2.2.1,
    (claim_C2_amended storeEnriched 91).2.2.2.2.2.2.2.2.2.1⟩

/-- Claim C3.  When a stored non-reorged block exists at next - 1 and its hash
differs (case-insensitively) from the parentHash of the remotely fetched block
at next, the reorg controller rewinds to next - REORG_REWIND_DEPTH: handleReorg
returns that rewind point with the rewound store, the poll iteration lowers
lastProcessed to rewindTo - 1, blocks at or above rewindTo are flagged
reorged, the checkpoint becomes rewindTo - 1, and the following iteration,
whose chain check passes, processes exactly rewindTo. -/
theorem claim_C3 (depth : Int) (remote : Int → BlockSnap) (dataOf : Int → ProcessData)
    (now : Int) (s : Store) (last head : Int) (prev : BlockRow)
    (hdepth : 0 < depth)
    (hhead : last + 1 ≤ head)
    (hprev : getBlockByNumberStore s last = some prev)
    (hmis : ¬ strToLower (remote (last + 1)).parentHash = strToLower prev.hash) :
    handleReorg depth remote s (last + 1) =
      (rewindStore s (last + 1 - depth), last + 1 - depth) ∧
    pollerIteration depth remote dataOf now s last head =
      (rewindStore s (last + 1 - depth), last + 1 - depth - 1,
        PollAction.rewound (last + 1 - depth - 1)) ∧
    (rewindStore s (last + 1 - depth)).checkpoint = some (last + 1 - depth - 1) ∧
    (∀ n row, s.blocks n = some row → last + 1 - depth ≤ n →
      (rewindStore s (last + 1 - depth)).blocks n = some { row with reorged := 1 }) ∧
    (last + 1 - depth ≤ head →
      getBlockByNumberStore (rewindStore s (last + 1 - depth)) (last + 1 - depth - 1) = none →
      (pollerIteration depth remote dataOf now (rewindStore s (last + 1 - depth))
        (last + 1 - depth - 1) head).2.2 = PollAction.processed (last + 1 - depth)) := by
  have hprev2 : getBlockByNumberStore s (last + 1 - 1) = some prev := by
    rw [show last + 1 - 1 = last from by ring]
    exact hprev
  have hHR := handleReorg_mismatch depth remote s (last + 1) prev hprev2 hmis
  refine ⟨hHR, ?_, rewindStore_checkpoint s (last + 1 - depth),
    fun n row hrow hge => rewindStore_blocks_flag s (last + 1 - depth) n row hrow hge, ?_⟩
  · unfold pollerIteration
    rw [if_neg (by omega : ¬ head < last + 1)]
    dsimp only
    rw [hHR]
    dsimp only
    rw [if_pos (by omega : last + 1 - depth < last + 1)]
  · intro h2 h3
    unfold pollerIteration
    rw [show last + 1 - depth - 1 + 1 = last + 1 - depth from by ring]
    rw [if_neg (by omega : ¬ head < last + 1 - depth)]
    dsimp only
    rw [handleReorg_noPrev depth remote _ (last + 1 - depth) h3]
    dsimp only
    rw [if_neg (by omega : ¬ last + 1 - depth < last + 1 - depth)]

/-- Claim C3, witness: the literal spec scenario.  Stored block 100 has hash
0xAA, the remote block 101 carries parentHash 0xBB, the rewind depth is 10:
the iteration rewinds, the checkpoint becomes 90, block 100 is flagged
reorged, and the next iteration processes block 91. -/
theorem claim_C3_witness :
    pollerIteration 10 remoteMismatch dataOfAny 0 storeReorg 100 101 =
      (rewindStore storeReorg 91, 90, PollAction.rewound 90) ∧
    (rewindStore storeReorg 91).checkpoint = some 90 ∧
    (rewindStore storeReorg 91).blocks 100 = some { rowAA with reorged := 1 } ∧
    (pollerIteration 10 remoteMismatch dataOfAny 0 (rewindStore storeReorg 91) 90 101).2.2 =
      PollAction.processed 91 := by
  have h := claim_C3 10 remoteMismatch dataOfAny 0 storeReorg 100 101 rowAA
    (by decide) (by decide) (by decide) (by decide)
  exact ⟨h.2.1, h.2.2.1, h.2.2.2.1 100 rowAA (by decide) (by decide),
    h.2.2.2.2 (by decide) (by decide)⟩

/-- Claim C4, counterexample.  The claim states the poller sleeps whenever
next is within SAFETY_BUFFER_BLOCKS of the head.  The loop compares next only
against the head itself: with head 100 and lastProcessed 99 the iteration
processes block 100, which is within the default buffer of 3 of the head. -/
theorem claim_C4_counterexample :
    (pollerIteration 10 remoteMismatch dataOfAny 0 emptyStore 99 100).2.2 =
      PollAction.processed 100 ∧
    (100 : Int) > 100 - 3 := by
  refine ⟨by decide, by decide⟩

/-- Claim C4, amended.  The poll loop sleeps exactly when next exceeds the
head itself; SAFETY_BUFFER_BLOCKS does not gate the loop.  The buffer is used
only on first run, when the missing checkpoint is seeded as
latestHead - SAFETY_BUFFER_BLOCKS; a stored checkpoint is resumed verbatim.
Blocks within the buffer of the head are processed, not skipped. -/
theorem claim_C4_amended :
    (∀ (depth : Int) (remote : Int → BlockSnap) (dataOf : Int → ProcessData) (now : Int)
      (s : Store) (last head : Int),
      ((pollerIteration depth remote dataOf now s last head).2.2 = PollAction.sleep) ↔
        head < last + 1) ∧
    (∀ latest buffer : Int, initLastProcessed none latest buffer = latest - buffer) ∧
    (∀ c latest buffer : Int, initLastProcessed (some c) latest buffer = c) := by
  refine ⟨?_, fun _ _ => rfl, fun _ _ _ => rfl⟩
  intro depth remote dataOf now s last head
  constructor
  · intro h
    by_contra hlt
    unfold pollerIteration at h
    rw [if_neg hlt] at h
    dsimp only at h
    split at h <;> simp at h
  · intro h
    unfold pollerIteration
    rw [if_pos h]

/-- Claim C5, counterexample.  The claim states no step ever writes a
checkpoint smaller than the stored one.  With checkpoint 100 and a parent-hash
mismatch at block 101, handleReorg rewinds by 10 and writes checkpoint 90,
strictly below the stored 100. -/
theorem claim_C5_counterexample :
    storeReorg.checkpoint = some 100 ∧
    (handleReorg 10 remoteMismatch storeReorg 101).1.checkpoint = some 90 ∧
    (90 : Int) < 100 := by
  refine ⟨rfl, by decide, by decide⟩

/-- Claim C5, amended.  Checkpoint writes are monotone on the per-block commit
path: every completed processBlock writes its own block number, which in the
loop is the previous checkpoint plus one.  Reorg handling is the exception:
on a parent-hash mismatch it writes next - REORG_REWIND_DEPTH - 1, which is
strictly below the prior checkpoint value next - 1 whenever the rewind depth
is positive, so checkpoints are not globally non-decreasing. -/
theorem claim_C5_amended :
    (∀ (s : Store) (d : ProcessData) (now : Int),
      (processBlock s d now).checkpoint = some d.block.number) ∧
    (∀ (depth : Int) (remote : Int → BlockSnap) (s : Store) (next : Int) (prev : BlockRow),
      0 < depth →
      getBlockByNumberStore s (next - 1) = some prev →
      ¬ strToLower (remote next).parentHash = strToLower prev.hash →
      (handleReorg depth remote s next).1.checkpoint = some (next - depth - 1) ∧
      next - depth - 1 < next - 1) := by
  refine ⟨fun s d now => processBlock_checkpoint s d now, ?_⟩
  intro depth remote s next prev hdepth hprev hmis
  rw [handleReorg_mismatch depth remote s next prev hprev hmis]
  exact ⟨rfl, by omega⟩

/-- Claim C5, witness: the commit path writes the processed block number, and
the concrete reorg at 101 with depth 10 writes 90, strictly below 100. -/
theorem claim_C5_witness :
    (processBlock emptyStore dataEx 1000).checkpoint = some dataEx.block.number ∧
    ((handleReorg 10 remoteMismatch storeReorg 101).1.checkpoint = some (101 - 10 - 1) ∧
      (101 - 10 - 1 : Int) < 101 - 1) :=
  ⟨claim_C5_amended.1 emptyStore dataEx 1000,
    claim_C5_amended.2 10 remoteMismatch storeReorg 101 rowAA (by decide) (by decide) (by decide)⟩

/-- Claim C6, counterexample.  The claim demands byte-identical blocks rows on
replay, exempting only log surrogate ids.  The blocks table has a createdAt
column defaulting to unixepoch() (schema.ts line 15) that the insertBlock
column list omits, so INSERT OR REPLACE re-evaluates the default: re-running
the write path at a later wall-clock second (2000 after 1000) replaces the
blocks row with one differing in createdAt, and the five tables are not left
in the same state as a single run. -/
theorem claim_C6_counterexample :
    (processBlock (processBlock emptyStore dataEx 1000) dataEx 2000).blocks 5 =
      some (blockRowOf 2000 dataEx.block) ∧
    (processBlock emptyStore dataEx 1000).blocks 5 = some (blockRowOf 1000 dataEx.block) ∧
    blockRowOf 2000 dataEx.block ≠ blockRowOf 1000 dataEx.block ∧
    fiveTables (processBlock (processBlock emptyStore dataEx 1000) dataEx 2000) ≠
      fiveTables (processBlock emptyStore dataEx 1000) := by
  have h1 : (processBlock (processBlock emptyStore dataEx 1000) dataEx 2000).blocks 5 =
      some (blockRowOf 2000 dataEx.block) := by decide
  have h2 : (processBlock emptyStore dataEx 1000).blocks 5 =
      some (blockRowOf 1000 dataEx.block) := by decide
  have h3 : blockRowOf 2000 dataEx.block ≠ blockRowOf 1000 dataEx.block := by decide
  refine ⟨h1, h2, h3, fun h => h3 ?_⟩
  have hq : (processBlock (processBlock emptyStore dataEx 1000) dataEx 2000).blocks 5 =
      (processBlock emptyStore dataEx 1000).blocks 5 := congrArg (fun q => q.1 5) h
  rw [h1, h2] at hq
  exact Option.some.inj hq

/-- Claim C6, amended.  Re-processing an already-committed block number with
the same fetched data leaves transactions, receipts, block_metrics and
event_counts byte-identical, and the blocks row identical except for its
createdAt column, which INSERT OR REPLACE re-fills with the wall clock of the
replay; when the replay runs at the same unixepoch second the five tables,
blocks included, are identical.  Log surrogate ids stay exempt as in the
original claim. -/
theorem claim_C6_amended (s : Store) (d : ProcessData) (t1 t2 : Int) :
    fourTables (processBlock (processBlock s d t1) d t2) =
      fourTables (processBlock s d t1) ∧
    (fun n => ((processBlock (processBlock s d t1) d t2).blocks n).map stripCreatedAt) =
      (fun n => ((processBlock s d t1).blocks n).map stripCreatedAt) ∧
    (t2 = t1 →
      fiveTables (processBlock (processBlock s d t1) d t2) =
        fiveTables (processBlock s d t1)) := by
  refine ⟨?_, ?_, ?_⟩
  · simp only [fourTables, processBlock_transactions, processBlock_receipts,
      processBlock_blockMetrics, processBlock_eventCounts, Prod.mk.injEq]
    exact ⟨foldl_insIgnore_idem _ _ _ _, foldl_insIgnore_idem _ _ _ _,
      mapUpdate_idem _ _ _,
      foldl_update_idem (fun p : String × Int => (d.block.number, p.1))
        (fun p : String × Int => p.2) _ _⟩
  · funext n
    rw [processBlock_blocks, processBlock_blocks]
    by_cases hn : n = d.block.number
    · simp [mapUpdate, hn, stripCreatedAt, blockRowOf]
    · simp [mapUpdate, hn]
  · intro ht
    subst ht
    simp only [fiveTables, processBlock_blocks, processBlock_transactions,
      processBlock_receipts, processBlock_blockMetrics, processBlock_eventCounts,
      Prod.mk.injEq]
    exact ⟨mapUpdate_idem _ _ _, foldl_insIgnore_idem _ _ _ _, foldl_insIgnore_idem _ _ _ _,
      mapUpdate_idem _ _ _,
      foldl_update_idem (fun p : String × Int => (d.block.number, p.1))
        (fun p : String × Int => p.2) _ _⟩

/-- Claim C6, witness: the amended theorem at the concrete fixture, replaying
at a later second for the four-table part and at the same second for the full
five-table part. -/
theorem claim_C6_witness :
    fourTables (processBlock (processBlock emptyStore dataEx 1000) dataEx 2000) =
      fourTables (processBlock emptyStore dataEx 1000) ∧
    fiveTables (processBlock (processBlock emptyStore dataEx 1000) dataEx 1000) =
      fiveTables (processBlock emptyStore dataEx 1000) :=
  ⟨(claim_C6_amended emptyStore dataEx 1000 2000).1,
    (claim_C6_amended emptyStore dataEx 1000 1000).2.2 rfl⟩

/-- Claim C7, counterexample.  The claim states the block processor probes the
batch blockReceipts fetch exactly once.  The processor never issues a
blockReceipts call at all: processing a block makes zero such calls, not one. -/
theorem claim_C7_counterexample :
    (processBlockCalls dataEx).countP isBlockReceiptsCall = 0 ∧ (0 : Nat) ≠ 1 := by
  refine ⟨by decide, by decide⟩

/-- Claim C7, amended.  The block processor contains no batch-receipts probe
and no latch: its remote calls are exactly one block fetch followed by one
per-hash receipt fetch per transaction, blockReceipts is never called for any
block, and every completed block still commits (the checkpoint is written). -/
theorem claim_C7_amended (d : ProcessData) :
    processBlockCalls d = RpcCall.getBlockWithTxs d.block.number ::
      d.txs.map (fun t => RpcCall.getTransactionReceipt t.hash) ∧
    (processBlockCalls d).countP isBlockReceiptsCall = 0 ∧
    (∀ (s : Store) (now : Int), (processBlock s d now).checkpoint = some d.block.number) := by
  refine ⟨?_, ?_, fun s now => processBlock_checkpoint s d now⟩
  · simp [processBlockCalls, fetchReceiptsCalls, List.map_map, Function.comp]
  · rw [List.countP_eq_zero]
    intro c hc
    rcases List.mem_cons.mp hc with rfl | hc2
    · simp [isBlockReceiptsCall]
    · simp only [fetchReceiptsCalls] at hc2
      rcases List.mem_map.mp hc2 with ⟨hsh, _, rfl⟩
      simp [isBlockReceiptsCall]

/-- Claim C8.  For a log whose topic0 is the keccak-256 hash of
Transfer(address,address,uint256) (compared case-insensitively, as the
classifier lower-cases the topic), classifyLog returns erc721_transfer exactly
when the non-null topic count is 4 and erc20_transfer for every other count,
in particular 3. -/
theorem claim_C8 (t : String) (topicCount : Nat)
    (h : strToLower t = SIGNATURES.TRANSFER) :
    classifyLog (some t) topicCount =
      (if topicCount = 4 then EventType.erc721_transfer else EventType.erc20_transfer) := by
  have ht : ¬(t = "") := by
    intro h0
    rw [h0] at h
    exact absurd h (by decide)
  show (if t = "" then EventType.other else classifyLogSig (strToLower t) topicCount) = _
  rw [if_neg ht, h]
  by_cases h4 : topicCount = 4
  · rw [h4]
    rfl
  · rw [if_neg h4]
    show (if topicCount = 4 then EventType.erc721_transfer else EventType.erc20_transfer) =
      EventType.erc20_transfer
    rw [if_neg h4]

/-- Claim C8, witness: the Transfer topic0 in upper-case hex with three topics
classifies as erc20_transfer, and with four topics as erc721_transfer. -/
theorem claim_C8_witness :
    strToLower "0xDDF252AD1BE2C89B69C2B068FC378DAA952BA7F163C4A11628F55A4DF523B3EF" =
      SIGNATURES.TRANSFER ∧
    classifyLog (some "0xDDF252AD1BE2C89B69C2B068FC378DAA952BA7F163C4A11628F55A4DF523B3EF") 3 =
      (if (3 : Nat) = 4 then EventType.erc721_transfer else EventType.erc20_transfer) ∧
    classifyLog (some SIGNATURES.TRANSFER) 4 =
      (if (4 : Nat) = 4 then EventType.erc721_transfer else EventType.erc20_transfer) :=
  ⟨by decide,
    claim_C8 "0xDDF252AD1BE2C89B69C2B068FC378DAA952BA7F163C4A11628F55A4DF523B3EF" 3 (by decide),
    claim_C8 SIGNATURES.TRANSFER 4 (by decide)⟩

/-- Topics of a V3 swap log whose indexed sender and recipient are present. -/
def topicsEx9 : List (Option String) :=
  [some "0xc42079f94a6350d7e6235f29174924f928cc2ac818eb64fed8004e115fbcca67",
   some "0x000000000000000000000000a1b2c3d4e5f6a7b8c9d0e1f2a3b4c5d6e7f8a9b0",
   some "0x000000000000000000000000b1b2c3d4e5f6a7b8c9d0e1f2a3b4c5d6e7f8a9b1"]

/-- Data blob whose first two words are all-ones, the int256 encoding of -1. -/
def dataEx9 : List Nat := List.replicate 64 255 ++ List.replicate 96 0

/-- The record decodeSwapV3 produces for that fixture: both amounts are -1. -/
def swapEx9 : DecodedSwapV3 where
  sender := "0xa1b2c3d4e5f6a7b8c9d0e1f2a3b4c5d6e7f8a9b0"
  recipient := "0xb1b2c3d4e5f6a7b8c9d0e1f2a3b4c5d6e7f8a9b1"
  amount0 := -1
  amount1 := -1
  sqrtPriceX96 := 0
  liquidity := 0
  tick := 0

set_option maxRecDepth 10000 in
/-- Claim C9.  decodeSwapV3 reads amount0 and amount1 as signed int256 via
two's-complement at width 256: every decoded amount lies in the interval from
-2^255 inclusive to 2^255 exclusive, so no value whose absolute value exceeds
2^255 is ever returned, and some inputs (an all-ones word) decode to negative
amounts. -/
theorem claim_C9 :
    (∀ (topics : List (Option String)) (data : List Nat) (r : DecodedSwapV3),
      decodeSwapV3 topics data = some r →
      -(2 : Int) ^ 255 ≤ r.amount0 ∧ r.amount0 < 2 ^ 255 ∧
        -(2 : Int) ^ 255 ≤ r.amount1 ∧ r.amount1 < 2 ^ 255) ∧
    (∃ topics data r, decodeSwapV3 topics data = some r ∧ r.amount0 < 0 ∧ r.amount1 < 0) := by
  constructor
  · intro topics data r h
    unfold decodeSwapV3 at h
    split at h
    next =>
      split_ifs at h with h1 h2
      cases h
      exact ⟨(toSigned256_bounds _ (wordAt_lt data 0)).1,
        (toSigned256_bounds _ (wordAt_lt data 0)).2,
        (toSigned256_bounds _ (wordAt_lt data 1)).1,
        (toSigned256_bounds _ (wordAt_lt data 1)).2⟩
    all_goals cases h
  · exact ⟨topicsEx9, dataEx9, swapEx9, by decide, by decide, by decide⟩

set_option maxRecDepth 10000 in
/-- Claim C9, witness: the bound of the theorem applied to the concrete
all-ones fixture, whose decoded amounts are -1. -/
theorem claim_C9_witness :
    decodeSwapV3 topicsEx9 dataEx9 = some swapEx9 ∧
    (-(2 : Int) ^ 255 ≤ swapEx9.amount0 ∧ swapEx9.amount0 < 2 ^ 255 ∧
      -(2 : Int) ^ 255 ≤ swapEx9.amount1 ∧ swapEx9.amount1 < 2 ^ 255) :=
  ⟨by decide, claim_C9.1 topicsEx9 dataEx9 swapEx9 (by decide)⟩

/-- Claim C10.  Every block row written by the per-block write path carries
reorged = 0: insertBlock hard-codes 0 for the flag, so when a block number
that markReorged had flagged during a rewind is re-ingested, the replace
clears the flag; a reorged = 1 flag survives only until that number is next
written. -/
theorem claim_C10 (s : Store) (r : Int) (d : ProcessData) (now : Int)
    (hr : r ≤ d.block.number) :
    (∀ row, s.blocks d.block.number = some row →
      (markReorgedStore s r).blocks d.block.number = some { row with reorged := 1 }) ∧
    (processBlock (markReorgedStore s r) d now).blocks d.block.number =
      some (blockRowOf now d.block) ∧
    (blockRowOf now d.block).reorged = 0 ∧
    (∀ s2 : Store, (processBlock s2 d now).blocks d.block.number =
      some (blockRowOf now d.block)) := by
  refine ⟨?_, ?_, rfl, ?_⟩
  · intro row hrow
    show (s.blocks d.block.number).map
      (fun row => if r ≤ d.block.number then { row with reorged := 1 } else row) =
      some { row with reorged := 1 }
    rw [hrow]
    simp [if_pos hr]
  · rw [processBlock_blocks]
    simp [mapUpdate]
  · intro s2
    rw [processBlock_blocks]
    simp [mapUpdate]

/-- Claim C10, witness: block 5 is flagged by a markReorged at 3, then
re-ingesting block 5 rewrites the row with reorged = 0. -/
theorem claim_C10_witness :
    (markReorgedStore storeBlock5 3).blocks 5 = some { rowAA with reorged := 1 } ∧
    (processBlock (markReorgedStore storeBlock5 3) dataEx 1000).blocks 5 =
      some (blockRowOf 1000 dataEx.block) ∧
    (blockRowOf 1000 dataEx.block).reorged = 0 := by
  have h := claim_C10 storeBlock5 3 dataEx 1000 (by decide)
  exact ⟨h.1 rowAA (by decide), h.2.1, h.2.2.1⟩

end BaseIndexer
